import Mathlib

/-
Verification development for the streaming session orchestrator of the
PDF form-filling web app.  The definitions below are a shallow embedding
of the TypeScript source: the Home component (handleSendMessage,
handleFileSelect, the restore effect, createLogEntry), the ChatPanel
submit guard, and the LeftPanel reset handler.  JavaScript truthiness on
optional strings / byte arrays / records is modelled explicitly.
Nondeterministic fresh identifiers (generateId, Date) are determinised
by threading a counter through the state; no claim depends on id or
timestamp values.
-/

namespace FormFillApp

/-- Form field descriptor, from the shared types module. -/
inductive FieldType where
  | text
  | checkbox
  | dropdown
  | radio
deriving DecidableEq, Repr

/-- One detected form field (field_id, field_type, page, label_context,
optional current value, optional option set). -/
structure FormField where
  field_id : String
  field_type : FieldType
  page : Nat
  label_context : String
  current_value : Option String
  options : Option (List String)
deriving DecidableEq, Repr

/-- Kind tag of an activity-log entry. -/
inductive LogType where
  | thinking
  | tool_call
  | tool_result
  | status
  | complete
  | error
deriving DecidableEq, Repr

/-- One activity-log entry rendered for the user (AgentLogEntry). -/
structure AgentLogEntry where
  id : String
  type : LogType
  timestamp : Nat
  content : String
  details : Option String
  toolName : Option String
  toolInput : Option (List (String × String))
deriving DecidableEq, Repr

/-- Role of a conversation message. -/
inductive MessageRole where
  | user
  | assistant
  | system
deriving DecidableEq, Repr

/-- Status of a conversation message. -/
inductive MessageStatus where
  | pending
  | streaming
  | complete
  | error
deriving DecidableEq, Repr

/-- One conversation message (ChatMessage). -/
structure ChatMessage where
  id : String
  role : MessageRole
  content : String
  timestamp : Nat
  status : Option MessageStatus
  agentLog : Option (List AgentLogEntry)
deriving DecidableEq, Repr

/-- Type discriminator of a decoded stream event. -/
inductive EventType where
  | init
  | status
  | tool_use
  | user
  | assistant
  | complete
  | pdf_ready
  | error
deriving DecidableEq, Repr

/-- One decoded stream event (StreamEvent): a discriminator plus the
optional payload fields of the TypeScript interface.  applied_edits is a
record, modelled as an association list with distinct keys. -/
structure StreamEvent where
  type : EventType
  message : Option String
  error : Option String
  text : Option String
  friendly : Option (List String)
  applied_count : Option Nat
  applied_edits : Option (List (String × String))
  session_id : Option String
  user_session_id : Option String
  pdf_bytes : Option String
deriving DecidableEq, Repr

/-- A stream event all of whose payload fields are absent; concrete
events are built from it by overriding the relevant fields. -/
def mkEvent (t : EventType) : StreamEvent :=
  { type := t, message := none, error := none, text := none, friendly := none,
    applied_count := none, applied_edits := none, session_id := none,
    user_session_id := none, pdf_bytes := none }

/-- JavaScript truthiness of an optional string: null/undefined and the
empty string are falsy. -/
def jsTruthyStr : Option String → Bool
  | none => false
  | some s => s != ""

/-- JavaScript `a || d` on an optional string with a string default:
yields the default when the value is absent or empty. -/
def jsOr (o : Option String) (d : String) : String :=
  match o with
  | none => d
  | some s => if s = "" then d else s

/-- JavaScript global replacement of the emphasis marker: scans left to
right, removing each occurrence of two consecutive asterisks
(f.replace with the global two-star pattern). -/
def stripStarsAux : List Char → List Char
  | [] => []
  | '*' :: '*' :: rest => stripStarsAux rest
  | c :: rest => c :: stripStarsAux rest

/-- Strip emphasis markup from a friendly description. -/
def stripStars (s : String) : String :=
  ⟨stripStarsAux s.data⟩

/-- Modelled from the spec: hexToBytes from lib/api (the api module is
not under src/); decodes a hex string into bytes, two hex digits per
byte. -/
def hexDigitVal (c : Char) : Nat :=
  if '0' ≤ c ∧ c ≤ '9' then c.toNat - '0'.toNat
  else if 'a' ≤ c ∧ c ≤ 'f' then c.toNat - 'a'.toNat + 10
  else if 'A' ≤ c ∧ c ≤ 'F' then c.toNat - 'A'.toNat + 10
  else 0

/-- Hex decoding on the character list, two digits per byte. -/
def hexToBytesAux : List Char → List Nat
  | a :: b :: rest => (hexDigitVal a * 16 + hexDigitVal b) :: hexToBytesAux rest
  | _ => []

/-- Decode a hex string to a byte list. -/
def hexToBytes (s : String) : List Nat :=
  hexToBytesAux s.data

/-- Create a log entry from a stream event (createLogEntry): returns
none for events that carry no user-visible information. -/
def createLogEntry (id : String) (timestamp : Nat) (event : StreamEvent) :
    Option AgentLogEntry :=
  match event.type with
  | .init =>
      some { id := id, type := .status, timestamp := timestamp,
             content := jsOr event.message "Initializing agent...",
             details := none, toolName := none, toolInput := none }
  | .status =>
      some { id := id, type := .status, timestamp := timestamp,
             content := jsOr event.message "Processing...",
             details := none, toolName := none, toolInput := none }
  | .tool_use =>
      match event.friendly with
      | some l =>
          if l.length > 0 then
            let cleanedActions := l.map stripStars
            if l.length > 1 then
              some { id := id, type := .tool_call, timestamp := timestamp,
                     content := "Filling " ++ toString l.length ++ " fields",
                     details := some (String.intercalate ", " cleanedActions),
                     toolName := none, toolInput := none }
            else
              some { id := id, type := .tool_call, timestamp := timestamp,
                     content := cleanedActions.headD "",
                     details := none, toolName := none, toolInput := none }
          else none
      | none => none
  | .user =>
      match event.friendly with
      | some l =>
          if l.length > 0 then
            some { id := id, type := .tool_result, timestamp := timestamp,
                   content := String.intercalate ", " l,
                   details := none, toolName := none, toolInput := none }
          else none
      | none => none
  | .assistant =>
      match event.text with
      | some t =>
          if t ≠ "" then
            some { id := id, type := .thinking, timestamp := timestamp,
                   content := "Agent thinking...",
                   details := some ((t.take 100) ++ (if t.length > 100 then "..." else "")),
                   toolName := none, toolInput := none }
          else none
      | none => none
  | .complete =>
      some { id := id, type := .complete, timestamp := timestamp,
             content := "Completed - filled " ++ toString (event.applied_count.getD 0) ++ " fields",
             details := none, toolName := none, toolInput := none }
  | .error =>
      some { id := id, type := .error, timestamp := timestamp,
             content := jsOr event.error "An error occurred",
             details := none, toolName := none, toolInput := none }
  | .pdf_ready =>
      some { id := id, type := .complete, timestamp := timestamp,
             content := "Form filled successfully",
             details := none, toolName := none, toolInput := none }

/-- Parsed auxiliary context file (filename, content, was-parsed flag). -/
structure ContextFile where
  filename : String
  content : String
  was_parsed : Bool
deriving DecidableEq, Repr

/-- PDF preview mode. -/
inductive PdfDisplayMode where
  | original
  | filled
deriving DecidableEq, Repr

/-- The Home component state: the session fields held in React state,
plus a fresh-id counter determinising generateId. -/
structure HomeState where
  sessionId : String
  file : Option String
  fields : List FormField
  messages : List ChatMessage
  originalPdfBytes : Option (List Nat)
  filledPdfBytes : Option (List Nat)
  pdfDisplayMode : PdfDisplayMode
  isAnalyzing : Bool
  isProcessing : Bool
  statusMessage : String
  appliedEdits : Option (List (String × String))
  agentSessionId : Option String
  userSessionId : Option String
  contextFiles : List ContextFile
  nextId : Nat
deriving DecidableEq, Repr

/-- The arguments handed to streamAgentFill when a turn opens its
stream (the call site in handleSendMessage). -/
structure FillRequest where
  instructions : String
  filledPdfBytes : Option (List Nat)
  isContinuation : Bool
  previousEdits : Option (List (String × String))
  resumeSessionId : Option String
  userSessionId : Option String
deriving DecidableEq, Repr

/-- One call to saveSessionToStorage performed inside the turn handler
(the synchronous snapshot written on adoption of a backend
userSessionId); records exactly the values the call site passes. -/
structure SaveCall where
  sessionId : String
  filledPdfBytes : Option (List Nat)
  fields : List FormField
  messages : List ChatMessage
  isProcessing : Bool
  userSessionId : Option String
deriving DecidableEq, Repr

/-- Result of one handleSendMessage invocation: the final component
state, the stream request it opened (none when rejected), and the
storage writes it performed synchronously before returning. -/
structure TurnOutcome where
  state : HomeState
  request : Option FillRequest
  saves : List SaveCall
deriving DecidableEq, Repr

/-- Modelled from the spec: createMessage from lib/session (the session
module is not under src/); builds a message with the given fresh id and
timestamp, empty activity log. -/
def createMessage (id : String) (ts : Nat) (role : MessageRole)
    (content : String) (status : MessageStatus) : ChatMessage :=
  { id := id, role := role, content := content, timestamp := ts,
    status := some status, agentLog := none }

/-- The local mutable variables of handleSendMessage accumulated while
folding the event stream. -/
structure TurnAcc where
  finalContent : String
  appliedCount : Nat
  newAppliedEdits : Option (List (String × String))
  newAgentSessionId : Option String
  newUserSessionId : Option String
  newFilledPdfBytes : Option (List Nat)
deriving DecidableEq, Repr

/-- Initial values of the turn-local accumulator. -/
def initAcc : TurnAcc :=
  { finalContent := "", appliedCount := 0, newAppliedEdits := none,
    newAgentSessionId := none, newUserSessionId := none,
    newFilledPdfBytes := none }

/-- Append a log entry to the activity log of every message whose id is
the placeholder id (the setMessages map inside the event loop). -/
def appendLogTo (messages : List ChatMessage) (aid : String)
    (entry : AgentLogEntry) : List ChatMessage :=
  messages.map (fun m =>
    if m.id = aid then { m with agentLog := some ((m.agentLog.getD []) ++ [entry]) }
    else m)

/-- Fold one decoded stream event into the turn state: append its log
entry to the placeholder (mirroring the content into the transient
status message), then perform the special handling for complete,
pdf_ready and error events. -/
def foldEvent (isContinuation : Bool) (aid : String)
    (p : HomeState × TurnAcc) (ev : StreamEvent) : HomeState × TurnAcc :=
  let st0 := p.1
  let acc := p.2
  let entry := createLogEntry (toString st0.nextId) st0.nextId ev
  let st1 := { st0 with nextId := st0.nextId + 1 }
  let st :=
    match entry with
    | some e => { st1 with
                  messages := appendLogTo st1.messages aid e
                  statusMessage := e.content }
    | none => st1
  match ev.type with
  | .complete =>
      let appliedCount := ev.applied_count.getD 0
      let newAppliedEdits :=
        if ev.applied_edits.isSome then ev.applied_edits else acc.newAppliedEdits
      let newAgentSessionId :=
        if jsTruthyStr ev.session_id then ev.session_id else acc.newAgentSessionId
      let newUserSessionId :=
        if jsTruthyStr ev.user_session_id then ev.user_session_id else acc.newUserSessionId
      let totalEdits :=
        match newAppliedEdits with
        | some m => m.length
        | none => appliedCount
      let finalContent :=
        if isContinuation then
          "Updated " ++ toString appliedCount ++ " fields. Total: " ++
            toString totalEdits ++ " fields filled."
        else
          "Successfully filled " ++ toString appliedCount ++ " form fields."
      (st, { acc with
             finalContent := finalContent
             appliedCount := appliedCount
             newAppliedEdits := newAppliedEdits
             newAgentSessionId := newAgentSessionId
             newUserSessionId := newUserSessionId })
  | .pdf_ready =>
      if jsTruthyStr ev.pdf_bytes then
        let bytes := hexToBytes (ev.pdf_bytes.getD "")
        ({ st with
           filledPdfBytes := some bytes
           pdfDisplayMode := .filled },
         { acc with newFilledPdfBytes := some bytes })
      else (st, acc)
  | .error =>
      (st, { acc with finalContent := jsOr ev.error "An error occurred" })
  | _ => (st, acc)

/-- The event loop of one turn: fold the consumed events in arrival
order. -/
def foldEvents (ic : Bool) (aid : String) (p : HomeState × TurnAcc)
    (evs : List StreamEvent) : HomeState × TurnAcc :=
  evs.foldl (foldEvent ic aid) p

/-- The user message appended at the start of a turn. -/
def turnUserMsg (s : HomeState) (content : String) : ChatMessage :=
  createMessage (toString s.nextId) s.nextId .user content .complete

/-- The fresh id of the turn's assistant placeholder. -/
def turnAid (s : HomeState) : String :=
  toString (s.nextId + 1)

/-- The streaming assistant placeholder appended at the start of a
turn, with an empty agent log. -/
def turnAsstMsg (s : HomeState) : ChatMessage :=
  { createMessage (turnAid s) (s.nextId + 1) .assistant "" .streaming with
    agentLog := some [] }

/-- The continuation decision: a previous agent session id (truthy) and
a filled PDF must both be present. -/
def turnIsCont (s : HomeState) : Bool :=
  jsTruthyStr s.agentSessionId && s.filledPdfBytes.isSome

/-- The arguments the turn passes to streamAgentFill. -/
def turnRequest (s : HomeState) (content : String) : FillRequest :=
  { instructions := content,
    filledPdfBytes := if turnIsCont s then s.filledPdfBytes else none,
    isContinuation := turnIsCont s,
    previousEdits := s.appliedEdits,
    resumeSessionId := s.agentSessionId,
    userSessionId := s.userSessionId }

/-- The state right after the user message and the placeholder are
appended and processing starts. -/
def turnS1 (s : HomeState) (content : String) : HomeState :=
  { s with
    messages := s.messages ++ [turnUserMsg s content, turnAsstMsg s]
    nextId := s.nextId + 2
    isProcessing := true
    statusMessage := "Starting agent..." }

/-- The state and accumulator after the consumed events are folded. -/
def turnFolded (s : HomeState) (content : String) (events : List StreamEvent) :
    HomeState × TurnAcc :=
  foldEvents (turnIsCont s) (turnAid s) (turnS1 s content, initAcc) events

/-- The synthetic error entry appended by the catch block. -/
def errFinalizeEntry (nid : Nat) (msg : String) : AgentLogEntry :=
  { id := toString nid, type := .error, timestamp := nid, content := msg,
    details := none, toolName := none, toolInput := none }

/-- The catch block's per-message update: the placeholder gets status
error, the error text as content, and the synthetic error entry. -/
def errFinalizeMsg (aid : String) (msg : String) (entry : AgentLogEntry)
    (m : ChatMessage) : ChatMessage :=
  if m.id = aid then
    { m with
      status := some .error
      content := "Error: " ++ msg
      agentLog := some ((m.agentLog.getD []) ++ [entry]) }
  else m

/-- The normal-end per-message update: the placeholder gets status
complete and the final content. -/
def completeFinalizeMsg (aid : String) (fc : String) (m : ChatMessage) :
    ChatMessage :=
  if m.id = aid then
    { m with
      status := some .complete
      content := fc }
  else m

/-- One full handleSendMessage invocation, as a function of the state,
the instruction text, the prefix of stream events consumed, and the
message of the transport fault thrown after that prefix (none when the
stream ended normally). -/
def handleSendMessage (s : HomeState) (content : String)
    (events : List StreamEvent) (thrown : Option String) : TurnOutcome :=
  match s.file with
  | none =>
      let sysMsg := createMessage (toString s.nextId) s.nextId .system
        "Please upload a PDF first" .complete
      { state := { s with
                   messages := s.messages ++ [sysMsg]
                   nextId := s.nextId + 1 },
        request := none, saves := [] }
  | some _ =>
      let folded := turnFolded s content events
      let s2 := folded.1
      let acc := folded.2
      match thrown with
      | some errMsg =>
          let s3 := { s2 with
            nextId := s2.nextId + 1
            messages := s2.messages.map
              (errFinalizeMsg (turnAid s) errMsg (errFinalizeEntry s2.nextId errMsg)) }
          { state := { s3 with isProcessing := false, statusMessage := "" },
            request := some (turnRequest s content), saves := [] }
      | none =>
          let s3 := if acc.newAppliedEdits.isSome then
              { s2 with appliedEdits := acc.newAppliedEdits } else s2
          let s4 := if jsTruthyStr acc.newAgentSessionId then
              { s3 with agentSessionId := acc.newAgentSessionId } else s3
          let saveCalls : List SaveCall :=
            if jsTruthyStr acc.newUserSessionId then
              [{ sessionId := s.sessionId,
                 filledPdfBytes := if acc.newFilledPdfBytes.isSome then
                     acc.newFilledPdfBytes else s.filledPdfBytes,
                 fields := s.fields,
                 messages := s.messages,
                 isProcessing := false,
                 userSessionId := acc.newUserSessionId }]
            else []
          let s5 := if jsTruthyStr acc.newUserSessionId then
              { s4 with userSessionId := acc.newUserSessionId } else s4
          let finalC := if acc.finalContent ≠ "" then acc.finalContent
                        else "Filled " ++ toString acc.appliedCount ++ " fields."
          let s6 := { s5 with
            messages := s5.messages.map (completeFinalizeMsg (turnAid s) finalC) }
          { state := { s6 with isProcessing := false, statusMessage := "" },
            request := some (turnRequest s content), saves := saveCalls }

/-- The chat input is disabled when no file is loaded or no fields were
detected (the disabled prop handed to ChatPanel). -/
def chatDisabled (s : HomeState) : Bool :=
  s.file.isNone || s.fields.length == 0

/-- Result of one submit attempt from the chat panel: the component
state, the remaining textarea content, and the turn outputs. -/
structure SubmitOutcome where
  state : HomeState
  input : String
  request : Option FillRequest
  saves : List SaveCall
deriving Repr

/-- The ChatPanel submit handler composed with handleSendMessage: the
instruction is forwarded (trimmed) and the input cleared only when the
input is non-blank, no turn is in flight, and the panel is enabled;
otherwise nothing happens and the input is retained. -/
def handleSubmit (s : HomeState) (input : String)
    (events : List StreamEvent) (thrown : Option String) : SubmitOutcome :=
  if input.trim != "" && !s.isProcessing && !chatDisabled s then
    let out := handleSendMessage s input.trim events thrown
    { state := out.state, input := "", request := out.request, saves := out.saves }
  else
    { state := s, input := input, request := none, saves := [] }

/-- The null branch of handleFileSelect: clears the per-task state
(file, fields, PDFs, edits, backend identifiers, context files). -/
def handleFileSelectClear (s : HomeState) : HomeState :=
  { s with
    file := none
    fields := []
    originalPdfBytes := none
    filledPdfBytes := none
    pdfDisplayMode := .original
    appliedEdits := none
    agentSessionId := none
    userSessionId := none
    contextFiles := [] }

/-- The LeftPanel reset handler: clears via handleFileSelect(null)
unless a turn is in flight. -/
def handleReset (s : HomeState) : HomeState :=
  if s.isProcessing then s else handleFileSelectClear s

/-- A context file as returned by the backend context-file fetch. -/
structure SessionContextFile where
  filename : String
  content : String
  was_parsed : Bool
deriving DecidableEq, Repr

/-- The continuation applied to the three parallel restore-fetch
results (the then-callback of the restore effect): each piece that is
present is applied, each absent piece leaves its state untouched. -/
def applyRestoreFetches (s : HomeState) (filledBytes : Option (List Nat))
    (origBytes : Option (List Nat)) (ctx : Option (List SessionContextFile)) :
    HomeState :=
  let s1 := if filledBytes.isSome then
      { s with
        filledPdfBytes := filledBytes
        pdfDisplayMode := .filled }
    else s
  let s2 := if origBytes.isSome then
      { s1 with originalPdfBytes := origBytes } else s1
  match ctx with
  | some l =>
      { s2 with contextFiles := l.map (fun f =>
          { filename := f.filename, content := f.content, was_parsed := f.was_parsed }) }
  | none => s2

/-- The last message of the final state (the assistant placeholder of a
started turn). -/
def lastMessage? (out : TurnOutcome) : Option ChatMessage :=
  out.state.messages.getLast?

/-- Status of the final state's last message. -/
def finalStatus (out : TurnOutcome) : Option MessageStatus :=
  (lastMessage? out).bind (fun m => m.status)

/-- Content of the final state's last message. -/
def finalContentOf (out : TurnOutcome) : Option String :=
  (lastMessage? out).map (fun m => m.content)

/-- Activity log of the final state's last message. -/
def finalAgentLog (out : TurnOutcome) : List AgentLogEntry :=
  ((lastMessage? out).bind (fun m => m.agentLog)).getD []

/-- Number of error entries in an activity log. -/
def errorEntryCount (l : List AgentLogEntry) : Nat :=
  (l.filter (fun e => e.type == LogType.error)).length

/-- Whether an event sequence contains an error event. -/
def containsErrorEvent (evs : List StreamEvent) : Bool :=
  evs.any (fun e => e.type == EventType.error)

/-- The agent session id a normally-ending turn adopts: the session_id
of the last complete event carrying a truthy one. -/
def lastAgentSid (evs : List StreamEvent) : Option String :=
  evs.foldl (fun a e =>
    if e.type == EventType.complete && jsTruthyStr e.session_id then e.session_id else a)
    none

/-- The user session id a normally-ending turn adopts: the
user_session_id of the last complete event carrying a truthy one. -/
def lastUserSid (evs : List StreamEvent) : Option String :=
  evs.foldl (fun a e =>
    if e.type == EventType.complete && jsTruthyStr e.user_session_id then
      e.user_session_id else a)
    none

/-- The cumulative edits map a normally-ending turn adopts: the
applied_edits of the last complete event carrying one. -/
def lastEditsOf (evs : List StreamEvent) : Option (List (String × String)) :=
  evs.foldl (fun a e =>
    if e.type == EventType.complete && e.applied_edits.isSome then
      e.applied_edits else a)
    none

/-- A sample detected form field used by concrete instances. -/
def demoField : FormField :=
  { field_id := "name", field_type := .text, page := 1, label_context := "Name",
    current_value := none, options := none }

/-- A fresh session with one uploaded file and one detected field. -/
def demoState : HomeState :=
  { sessionId := "sess-1", file := some "form.pdf", fields := [demoField],
    messages := [], originalPdfBytes := none, filledPdfBytes := none,
    pdfDisplayMode := .original, isAnalyzing := false, isProcessing := false,
    statusMessage := "", appliedEdits := none, agentSessionId := none,
    userSessionId := none, contextFiles := [], nextId := 0 }

/-- A decoded error event with error text. -/
def demoErrEv : StreamEvent := { mkEvent .error with error := some "boom" }

/-- A session holding an agent session id and accumulated edits but no
filled PDF (e.g. the first turn completed without a pdf_ready event). -/
def sidNoPdfState : HomeState :=
  { demoState with agentSessionId := some "abc", appliedEdits := some [("name", "John")] }

/-- A session with one accumulated edit. -/
def oneEditState : HomeState :=
  { demoState with appliedEdits := some [("a", "1")] }

/-- A complete event whose cumulative edits map lacks the previously
applied key. -/
def shrinkCompleteEv : StreamEvent :=
  { mkEvent .complete with applied_edits := some [("b", "2")], applied_count := some 1 }

/-- A restorable session mid-task: one system message, both backend
identifiers set, not processing. -/
def midTaskState : HomeState :=
  { demoState with
    messages := [createMessage "m1" 0 .system "Detected 1 fillable fields in the PDF" .complete]
    agentSessionId := some "abc"
    userSessionId := some "u1" }

/-- A complete event returning an agent session id but no user session
id. -/
def agentSidCompleteEv : StreamEvent :=
  { mkEvent .complete with session_id := some "abc", applied_count := some 1 }

/-- A session with a turn already in flight. -/
def busyState : HomeState := { demoState with isProcessing := true }

/-- A complete event returning both backend identifiers. -/
def demoUserSidEv : StreamEvent :=
  { mkEvent .complete with
    session_id := some "abc"
    user_session_id := some "u9"
    applied_count := some 1 }

/-- The tool_use event of the spec scenario, two friendly descriptions
with emphasis markup. -/
def demoToolUseEv : StreamEvent :=
  { mkEvent .tool_use with
    friendly := some ["**Set** name field", "**Set** date field"] }

/-- Whether an optional log entry is an error entry. -/
def entryIsError (o : Option AgentLogEntry) : Bool :=
  match o with
  | some e => e.type == LogType.error
  | none => false

/-- The final content a normally-ending turn writes into the
placeholder: the accumulated final content, or the fallback count
summary when it is empty. -/
def turnFinalC (s : HomeState) (content : String) (events : List StreamEvent) :
    String :=
  if (turnFolded s content events).2.finalContent ≠ "" then
    (turnFolded s content events).2.finalContent
  else "Filled " ++ toString (turnFolded s content events).2.appliedCount ++ " fields."

/-- The snapshot passed to the synchronous saveSessionToStorage call of
a normally-ending turn (captured closure values plus the freshly
adopted user session id). -/
def turnSave (s : HomeState) (content : String) (events : List StreamEvent) :
    SaveCall :=
  { sessionId := s.sessionId,
    filledPdfBytes := if (turnFolded s content events).2.newFilledPdfBytes.isSome then
        (turnFolded s content events).2.newFilledPdfBytes else s.filledPdfBytes,
    fields := s.fields,
    messages := s.messages,
    isProcessing := false,
    userSessionId := (turnFolded s content events).2.newUserSessionId }

end FormFillApp

namespace FormFillApp

theorem createLogEntry_of_error (id : String) (ts : Nat) (ev : StreamEvent)
    (h : ev.type = EventType.error) :
    createLogEntry id ts ev =
      some { id := id, type := .error, timestamp := ts,
             content := jsOr ev.error "An error occurred",
             details := none, toolName := none, toolInput := none } := by
  unfold createLogEntry
  rw [h]

theorem entryIsError_createLogEntry (id : String) (ts : Nat) (ev : StreamEvent) :
    entryIsError (createLogEntry id ts ev) = (ev.type == EventType.error) := by
  unfold createLogEntry entryIsError
  cases h : ev.type
  case init => simp
  case status => simp
  case tool_use =>
    cases hf : ev.friendly with
    | none => simp
    | some l =>
      by_cases h0 : 0 < l.length
      · by_cases h1 : 1 < l.length
        · simp [h0, h1]
        · simp [h0, h1]
      · simp [h0]
  case user =>
    cases hf : ev.friendly with
    | none => simp
    | some l => by_cases h0 : 0 < l.length <;> simp [h0]
  case assistant =>
    cases ht : ev.text with
    | none => simp
    | some t => by_cases h0 : t = "" <;> simp [h0]
  case complete => simp
  case pdf_ready => simp
  case error => simp

theorem errorEntryCount_append (x : List AgentLogEntry) (e : AgentLogEntry) :
    errorEntryCount (x ++ [e]) =
      errorEntryCount x + (if e.type == LogType.error then 1 else 0) := by
  unfold errorEntryCount
  rw [List.filter_append]
  by_cases h : e.type == LogType.error <;> simp [List.filter, h]

theorem foldEvent_messages (ic : Bool) (aid : String) (p : HomeState × TurnAcc)
    (ev : StreamEvent) :
    (foldEvent ic aid p ev).1.messages =
      (match createLogEntry (toString p.1.nextId) p.1.nextId ev with
       | some e => appendLogTo p.1.messages aid e
       | none => p.1.messages) := by
  unfold foldEvent
  cases hcle : createLogEntry (toString p.1.nextId) p.1.nextId ev <;>
    cases hty : ev.type <;> simp [hcle] <;> split <;> rfl

theorem foldEvent_state_fixed (ic : Bool) (aid : String) (p : HomeState × TurnAcc)
    (ev : StreamEvent) :
    (foldEvent ic aid p ev).1.sessionId = p.1.sessionId ∧
    (foldEvent ic aid p ev).1.agentSessionId = p.1.agentSessionId ∧
    (foldEvent ic aid p ev).1.userSessionId = p.1.userSessionId ∧
    (foldEvent ic aid p ev).1.appliedEdits = p.1.appliedEdits ∧
    (foldEvent ic aid p ev).1.fields = p.1.fields ∧
    (foldEvent ic aid p ev).1.file = p.1.file ∧
    (foldEvent ic aid p ev).1.isProcessing = p.1.isProcessing := by
  unfold foldEvent
  cases hcle : createLogEntry (toString p.1.nextId) p.1.nextId ev <;>
    cases hty : ev.type <;> simp [hcle] <;> split <;> simp

theorem foldEvent_acc_userSid (ic : Bool) (aid : String) (p : HomeState × TurnAcc)
    (ev : StreamEvent) :
    (foldEvent ic aid p ev).2.newUserSessionId =
      (if ev.type == EventType.complete && jsTruthyStr ev.user_session_id then
        ev.user_session_id else p.2.newUserSessionId) := by
  unfold foldEvent
  cases hcle : createLogEntry (toString p.1.nextId) p.1.nextId ev <;>
    cases hty : ev.type <;> simp [hcle] <;> split <;> simp

theorem foldEvent_acc_agentSid (ic : Bool) (aid : String) (p : HomeState × TurnAcc)
    (ev : StreamEvent) :
    (foldEvent ic aid p ev).2.newAgentSessionId =
      (if ev.type == EventType.complete && jsTruthyStr ev.session_id then
        ev.session_id else p.2.newAgentSessionId) := by
  unfold foldEvent
  cases hcle : createLogEntry (toString p.1.nextId) p.1.nextId ev <;>
    cases hty : ev.type <;> simp [hcle] <;> split <;> simp

theorem foldEvent_acc_edits (ic : Bool) (aid : String) (p : HomeState × TurnAcc)
    (ev : StreamEvent) :
    (foldEvent ic aid p ev).2.newAppliedEdits =
      (if ev.type == EventType.complete && ev.applied_edits.isSome then
        ev.applied_edits else p.2.newAppliedEdits) := by
  unfold foldEvent
  cases hcle : createLogEntry (toString p.1.nextId) p.1.nextId ev <;>
    cases hty : ev.type <;> simp [hcle] <;> split <;> simp

theorem appendLogTo_getLast (messages : List ChatMessage) (aid : String)
    (e : AgentLogEntry) (m : ChatMessage) (h : messages.getLast? = some m)
    (hid : m.id = aid) :
    (appendLogTo messages aid e).getLast? =
      some { m with agentLog := some ((m.agentLog.getD []) ++ [e]) } := by
  unfold appendLogTo
  rw [List.getLast?_map, h]
  simp [hid]

theorem foldEvents_last (ic : Bool) (aid : String) (evs : List StreamEvent) :
    ∀ (st : HomeState) (acc : TurnAcc) (m : ChatMessage),
      st.messages.getLast? = some m → m.id = aid →
      ∃ m', (foldEvents ic aid (st, acc) evs).1.messages.getLast? = some m' ∧
        m'.id = aid ∧ m'.status = m.status ∧ m'.content = m.content ∧
        errorEntryCount (m'.agentLog.getD []) =
          errorEntryCount (m.agentLog.getD []) +
            (evs.filter (fun e => e.type == EventType.error)).length := by
  induction evs with
  | nil =>
      intro st acc m h hid
      exact ⟨m, h, hid, rfl, rfl, by simp⟩
  | cons ev evs ih =>
      intro st acc m h hid
      have hmsgs := foldEvent_messages ic aid (st, acc) ev
      have hiserr := entryIsError_createLogEntry (toString st.nextId) st.nextId ev
      cases hcle : createLogEntry (toString st.nextId) st.nextId ev with
      | none =>
          rw [hcle] at hmsgs hiserr
          have hlast : (foldEvent ic aid (st, acc) ev).1.messages.getLast? = some m := by
            rw [hmsgs]; exact h
          obtain ⟨m', h1, h2, h3, h4, h5⟩ :=
            ih (foldEvent ic aid (st, acc) ev).1 (foldEvent ic aid (st, acc) ev).2 m hlast hid
          refine ⟨m', by simpa using h1, h2, h3, h4, ?_⟩
          have hne : (ev.type == EventType.error) = false := by
            rw [← hiserr]; rfl
          simp only [List.filter, hne, h5]
      | some e =>
          rw [hcle] at hmsgs hiserr
          have hlast : (foldEvent ic aid (st, acc) ev).1.messages.getLast? =
              some { m with agentLog := some ((m.agentLog.getD []) ++ [e]) } := by
            rw [hmsgs]
            exact appendLogTo_getLast st.messages aid e m h hid
          obtain ⟨m', h1, h2, h3, h4, h5⟩ :=
            ih (foldEvent ic aid (st, acc) ev).1 (foldEvent ic aid (st, acc) ev).2
              { m with agentLog := some ((m.agentLog.getD []) ++ [e]) } hlast hid
          refine ⟨m', by simpa using h1, h2, h3, h4, ?_⟩
          have heq : (e.type == LogType.error) = (ev.type == EventType.error) := by
            simpa [entryIsError] using hiserr
          rw [h5,
            show ({ m with agentLog := some ((m.agentLog.getD []) ++ [e]) } :
              ChatMessage).agentLog.getD [] = (m.agentLog.getD []) ++ [e] from rfl,
            errorEntryCount_append, heq]
          cases herr : (ev.type == EventType.error) <;>
            simp [List.filter, herr]
          all_goals omega

theorem foldEvents_state_fixed (ic : Bool) (aid : String) (evs : List StreamEvent) :
    ∀ (p : HomeState × TurnAcc),
      (foldEvents ic aid p evs).1.sessionId = p.1.sessionId ∧
      (foldEvents ic aid p evs).1.agentSessionId = p.1.agentSessionId ∧
      (foldEvents ic aid p evs).1.userSessionId = p.1.userSessionId ∧
      (foldEvents ic aid p evs).1.appliedEdits = p.1.appliedEdits ∧
      (foldEvents ic aid p evs).1.fields = p.1.fields ∧
      (foldEvents ic aid p evs).1.file = p.1.file ∧
      (foldEvents ic aid p evs).1.isProcessing = p.1.isProcessing := by
  induction evs with
  | nil => intro p; exact ⟨rfl, rfl, rfl, rfl, rfl, rfl, rfl⟩
  | cons ev evs ih =>
      intro p
      have hstep := foldEvent_state_fixed ic aid p ev
      have hrest := ih (foldEvent ic aid p ev)
      exact ⟨hrest.1.trans hstep.1,
        hrest.2.1.trans hstep.2.1,
        hrest.2.2.1.trans hstep.2.2.1,
        hrest.2.2.2.1.trans hstep.2.2.2.1,
        hrest.2.2.2.2.1.trans hstep.2.2.2.2.1,
        hrest.2.2.2.2.2.1.trans hstep.2.2.2.2.2.1,
        hrest.2.2.2.2.2.2.trans hstep.2.2.2.2.2.2⟩

theorem foldEvents_acc_userSid (ic : Bool) (aid : String) (evs : List StreamEvent) :
    ∀ (p : HomeState × TurnAcc),
      (foldEvents ic aid p evs).2.newUserSessionId =
        evs.foldl (fun a e =>
          if e.type == EventType.complete && jsTruthyStr e.user_session_id then
            e.user_session_id else a) p.2.newUserSessionId := by
  induction evs with
  | nil => intro p; rfl
  | cons ev evs ih =>
      intro p
      have h := foldEvent_acc_userSid ic aid p ev
      have h2 := ih (foldEvent ic aid p ev)
      simp only [foldEvents] at h2 ⊢
      rw [List.foldl_cons, h2, List.foldl_cons, h]

theorem foldEvents_acc_agentSid (ic : Bool) (aid : String) (evs : List StreamEvent) :
    ∀ (p : HomeState × TurnAcc),
      (foldEvents ic aid p evs).2.newAgentSessionId =
        evs.foldl (fun a e =>
          if e.type == EventType.complete && jsTruthyStr e.session_id then
            e.session_id else a) p.2.newAgentSessionId := by
  induction evs with
  | nil => intro p; rfl
  | cons ev evs ih =>
      intro p
      have h := foldEvent_acc_agentSid ic aid p ev
      have h2 := ih (foldEvent ic aid p ev)
      simp only [foldEvents] at h2 ⊢
      rw [List.foldl_cons, h2, List.foldl_cons, h]

theorem turnS1_getLast (s : HomeState) (c : String) :
    (turnS1 s c).messages.getLast? = some (turnAsstMsg s) := by
  show (s.messages ++ [turnUserMsg s c, turnAsstMsg s]).getLast? = some (turnAsstMsg s)
  rw [List.getLast?_append_cons]
  rfl

theorem turn_last (s : HomeState) (c : String) (evs : List StreamEvent) :
    ∃ m', (turnFolded s c evs).1.messages.getLast? = some m' ∧
      m'.id = turnAid s ∧ m'.status = some .streaming ∧ m'.content = "" ∧
      errorEntryCount (m'.agentLog.getD []) =
        (evs.filter (fun e => e.type == EventType.error)).length := by
  obtain ⟨m', h1, h2, h3, h4, h5⟩ :=
    foldEvents_last (turnIsCont s) (turnAid s) evs (turnS1 s c) initAcc
      (turnAsstMsg s) (turnS1_getLast s c) rfl
  refine ⟨m', h1, h2, by rw [h3]; rfl, by rw [h4]; rfl, ?_⟩
  rw [h5, show errorEntryCount ((turnAsstMsg s).agentLog.getD []) = 0 from rfl]
  omega

theorem handleSendMessage_thrown_eq (s : HomeState) (f : String)
    (hf : s.file = some f) (c : String) (evs : List StreamEvent) (msg : String) :
    handleSendMessage s c evs (some msg) =
      { state := { (turnFolded s c evs).1 with
          nextId := (turnFolded s c evs).1.nextId + 1
          messages := (turnFolded s c evs).1.messages.map
            (errFinalizeMsg (turnAid s) msg
              (errFinalizeEntry (turnFolded s c evs).1.nextId msg))
          isProcessing := false
          statusMessage := "" },
        request := some (turnRequest s c), saves := [] } := by
  unfold handleSendMessage
  rw [hf]

theorem handleSendMessage_none_eq (s : HomeState) (f : String)
    (hf : s.file = some f) (c : String) (evs : List StreamEvent) :
    handleSendMessage s c evs none =
      { state := { (turnFolded s c evs).1 with
          appliedEdits := if (turnFolded s c evs).2.newAppliedEdits.isSome then
              (turnFolded s c evs).2.newAppliedEdits
            else (turnFolded s c evs).1.appliedEdits
          agentSessionId := if jsTruthyStr (turnFolded s c evs).2.newAgentSessionId then
              (turnFolded s c evs).2.newAgentSessionId
            else (turnFolded s c evs).1.agentSessionId
          userSessionId := if jsTruthyStr (turnFolded s c evs).2.newUserSessionId then
              (turnFolded s c evs).2.newUserSessionId
            else (turnFolded s c evs).1.userSessionId
          messages := (turnFolded s c evs).1.messages.map
            (completeFinalizeMsg (turnAid s) (turnFinalC s c evs))
          isProcessing := false
          statusMessage := "" },
        request := some (turnRequest s c),
        saves := if jsTruthyStr (turnFolded s c evs).2.newUserSessionId then
            [turnSave s c evs] else [] } := by
  unfold handleSendMessage
  rw [hf]
  cases h1 : (turnFolded s c evs).2.newAppliedEdits.isSome <;>
    cases h2 : jsTruthyStr (turnFolded s c evs).2.newAgentSessionId <;>
    cases h3 : jsTruthyStr (turnFolded s c evs).2.newUserSessionId <;>
    simp only [h1, h2, h3, Bool.false_eq_true, if_true, if_false, turnSave, turnFinalC]

theorem foldEvents_acc_edits (ic : Bool) (aid : String) (evs : List StreamEvent) :
    ∀ (p : HomeState × TurnAcc),
      (foldEvents ic aid p evs).2.newAppliedEdits =
        evs.foldl (fun a e =>
          if e.type == EventType.complete && e.applied_edits.isSome then
            e.applied_edits else a) p.2.newAppliedEdits := by
  induction evs with
  | nil => intro p; rfl
  | cons ev evs ih =>
      intro p
      have h := foldEvent_acc_edits ic aid p ev
      have h2 := ih (foldEvent ic aid p ev)
      simp only [foldEvents] at h2 ⊢
      rw [List.foldl_cons, h2, List.foldl_cons, h]

/-- C10: for every turn that is actually started (a file is loaded),
whether the stream ends normally, delivers an error event, or throws a
transport fault, isProcessing is reset to false and the transient
status message is reset to the empty string when the handler returns;
no path leaves the session stuck in the processing state. -/
theorem c10_processing_always_reset (s : HomeState) (f : String)
    (hf : s.file = some f) (c : String) (evs : List StreamEvent)
    (th : Option String) :
    (handleSendMessage s c evs th).state.isProcessing = false ∧
    (handleSendMessage s c evs th).state.statusMessage = "" := by
  cases th with
  | some msg => rw [handleSendMessage_thrown_eq s f hf c evs msg]; exact ⟨rfl, rfl⟩
  | none => rw [handleSendMessage_none_eq s f hf c evs]; exact ⟨rfl, rfl⟩

/-- Witness for C10 at a concrete session, one error event consumed and
a transport fault thrown. -/
theorem c10_witness :
    demoState.file = some "form.pdf" ∧
    ((handleSendMessage demoState "fill" [demoErrEv] (some "net down")).state.isProcessing = false ∧
     (handleSendMessage demoState "fill" [demoErrEv] (some "net down")).state.statusMessage = "") :=
  ⟨rfl, c10_processing_always_reset demoState "form.pdf" rfl "fill" [demoErrEv] (some "net down")⟩

/-- C1 counterexample: a turn consuming exactly one error event whose
stream then ends normally is finalized with status complete, not
error — the claimed error-dominates finalization does not happen. -/
theorem c1_counterexample :
    containsErrorEvent [demoErrEv] = true ∧
    finalStatus (handleSendMessage demoState "hi" [demoErrEv] none) =
      some MessageStatus.complete ∧
    finalStatus (handleSendMessage demoState "hi" [demoErrEv] none) ≠
      some MessageStatus.error := by
  refine ⟨rfl, rfl, ?_⟩
  intro h
  have : some MessageStatus.complete = some MessageStatus.error :=
    (rfl : finalStatus (handleSendMessage demoState "hi" [demoErrEv] none) =
      some MessageStatus.complete).symm.trans h
  simp at this

/-- C1 (amended): the placeholder is finalized with status error
exactly when the stream throws; a consumed sequence that contains an
error event but ends without a throw still finalizes the placeholder
with status complete (the error text only reaches the final content). -/
theorem c1_amended_error_status_iff_thrown (s : HomeState) (f : String)
    (hf : s.file = some f) (c : String) (evs : List StreamEvent)
    (th : Option String) :
    finalStatus (handleSendMessage s c evs th) =
      some (if th.isSome then MessageStatus.error else MessageStatus.complete) := by
  obtain ⟨m', h1, h2, h3, h4, h5⟩ := turn_last s c evs
  cases th with
  | some msg =>
      rw [handleSendMessage_thrown_eq s f hf c evs msg]
      show ((((turnFolded s c evs).1.messages.map
          (errFinalizeMsg (turnAid s) msg
            (errFinalizeEntry (turnFolded s c evs).1.nextId msg))).getLast?).bind
          (fun m => m.status)) = some MessageStatus.error
      rw [List.getLast?_map, h1]
      simp [errFinalizeMsg, h2]
  | none =>
      rw [handleSendMessage_none_eq s f hf c evs]
      show ((((turnFolded s c evs).1.messages.map
          (completeFinalizeMsg (turnAid s) (turnFinalC s c evs))).getLast?).bind
          (fun m => m.status)) = some MessageStatus.complete
      rw [List.getLast?_map, h1]
      simp [completeFinalizeMsg, h2]

/-- Witness for the amended C1: the error-event sequence of the
counterexample, stream ending normally. -/
theorem c1_amended_witness :
    demoState.file = some "form.pdf" ∧
    finalStatus (handleSendMessage demoState "hi" [demoErrEv] none) =
      some (if (none : Option String).isSome then MessageStatus.error
            else MessageStatus.complete) :=
  ⟨rfl, c1_amended_error_status_iff_thrown demoState "form.pdf" rfl "hi" [demoErrEv] none⟩

/-- C5 counterexample: when an error event was already folded into the
log and the stream then throws, the catch block appends a second error
entry unconditionally — the claimed no-duplicate guarantee fails. -/
theorem c5_counterexample :
    containsErrorEvent [demoErrEv] = true ∧
    errorEntryCount
      (finalAgentLog (handleSendMessage demoState "hi" [demoErrEv] (some "net down"))) = 2 := by
  exact ⟨rfl, rfl⟩

/-- C5 (amended): whenever the stream throws, the placeholder gets
status error, content prefixed with the error message, and one
synthetic error entry appended unconditionally: the final log holds one
error entry per folded error event plus exactly one synthetic entry, so
exactly one error entry when no terminal event was observed, and a
duplicate when an error event was already folded. -/
theorem c5_amended_throw_appends_unconditionally (s : HomeState) (f : String)
    (hf : s.file = some f) (c : String) (evs : List StreamEvent) (msg : String) :
    finalStatus (handleSendMessage s c evs (some msg)) = some MessageStatus.error ∧
    finalContentOf (handleSendMessage s c evs (some msg)) = some ("Error: " ++ msg) ∧
    errorEntryCount (finalAgentLog (handleSendMessage s c evs (some msg))) =
      (evs.filter (fun e => e.type == EventType.error)).length + 1 := by
  obtain ⟨m', h1, h2, h3, h4, h5⟩ := turn_last s c evs
  rw [handleSendMessage_thrown_eq s f hf c evs msg]
  refine ⟨?_, ?_, ?_⟩
  · show ((((turnFolded s c evs).1.messages.map
        (errFinalizeMsg (turnAid s) msg
          (errFinalizeEntry (turnFolded s c evs).1.nextId msg))).getLast?).bind
        (fun m => m.status)) = some MessageStatus.error
    rw [List.getLast?_map, h1]
    simp [errFinalizeMsg, h2]
  · show ((((turnFolded s c evs).1.messages.map
        (errFinalizeMsg (turnAid s) msg
          (errFinalizeEntry (turnFolded s c evs).1.nextId msg))).getLast?).map
        (fun m => m.content)) = some ("Error: " ++ msg)
    rw [List.getLast?_map, h1]
    simp [errFinalizeMsg, h2]
  · show errorEntryCount
        (((((turnFolded s c evs).1.messages.map
          (errFinalizeMsg (turnAid s) msg
            (errFinalizeEntry (turnFolded s c evs).1.nextId msg))).getLast?).bind
          (fun m => m.agentLog)).getD []) =
        (evs.filter (fun e => e.type == EventType.error)).length + 1
    rw [List.getLast?_map, h1]
    simp [errFinalizeMsg, h2, errorEntryCount_append, errFinalizeEntry, h5]

/-- Witness for the amended C5: a thrown fault with no terminal event
observed yields exactly one error entry. -/
theorem c5_amended_witness :
    demoState.file = some "form.pdf" ∧
    (finalStatus (handleSendMessage demoState "fill" [] (some "boom")) =
      some MessageStatus.error ∧
     finalContentOf (handleSendMessage demoState "fill" [] (some "boom")) =
      some ("Error: " ++ "boom") ∧
     errorEntryCount (finalAgentLog (handleSendMessage demoState "fill" [] (some "boom"))) =
      (([] : List StreamEvent).filter (fun e => e.type == EventType.error)).length + 1) :=
  ⟨rfl, c5_amended_throw_appends_unconditionally demoState "form.pdf" rfl "fill" [] "boom"⟩

/-- C3: an instruction submitted while a turn is in flight or while no
file/fields are loaded is rejected without opening a stream and without
appending any message: the state is left exactly as it was, and the
instruction stays in the input box (not silently dropped), so it cannot
interleave with the in-flight turn and at most one turn is ever in
flight. -/
theorem c3_submit_rejected_while_busy_or_disabled (s : HomeState)
    (input : String) (evs : List StreamEvent) (th : Option String)
    (h : s.isProcessing = true ∨ chatDisabled s = true) :
    (handleSubmit s input evs th).request = none ∧
    (handleSubmit s input evs th).state = s ∧
    (handleSubmit s input evs th).input = input := by
  unfold handleSubmit
  rcases h with h | h <;> simp [h]

/-- Witness for C3: a submit attempt against a session whose turn is in
flight. -/
theorem c3_witness :
    (busyState.isProcessing = true ∨ chatDisabled busyState = true) ∧
    ((handleSubmit busyState "fill the date" [] none).request = none ∧
     (handleSubmit busyState "fill the date" [] none).state = busyState ∧
     (handleSubmit busyState "fill the date" [] none).input = "fill the date") :=
  ⟨Or.inl rfl,
   c3_submit_rejected_while_busy_or_disabled busyState "fill the date" [] none (Or.inl rfl)⟩

/-- C4: the three restore-fetch results are applied independently: each
piece of state after the restore continuation depends only on its own
fetch result — an absent (failed) fetch leaves exactly that piece
unchanged and never blocks the others — and the rest of the session is
untouched. -/
theorem c4_restore_fetches_independent (s : HomeState)
    (fb ob : Option (List Nat)) (cf : Option (List SessionContextFile)) :
    (applyRestoreFetches s fb ob cf).filledPdfBytes =
      (if fb.isSome then fb else s.filledPdfBytes) ∧
    (applyRestoreFetches s fb ob cf).originalPdfBytes =
      (if ob.isSome then ob else s.originalPdfBytes) ∧
    (applyRestoreFetches s fb ob cf).contextFiles =
      (match cf with
       | some l => l.map (fun fl =>
          { filename := fl.filename, content := fl.content, was_parsed := fl.was_parsed })
       | none => s.contextFiles) ∧
    (applyRestoreFetches s fb ob cf).fields = s.fields ∧
    (applyRestoreFetches s fb ob cf).messages = s.messages ∧
    (applyRestoreFetches s fb ob cf).userSessionId = s.userSessionId ∧
    (applyRestoreFetches s fb ob cf).sessionId = s.sessionId := by
  unfold applyRestoreFetches
  cases fb <;> cases ob <;> cases cf <;> simp

/-- C9: folding a tool_use event appends exactly one entry: none for an
absent or empty friendly list; for a single description, a tool-call
entry whose content is the description with the emphasis markup
stripped; for several, a single tool-call entry counting the fields
with the stripped descriptions joined as detail. -/
theorem c9_tool_use_folding (id : String) (ts : Nat) (ev : StreamEvent)
    (h : ev.type = EventType.tool_use) :
    (ev.friendly = none ∨ ev.friendly = some [] → createLogEntry id ts ev = none) ∧
    (∀ d, ev.friendly = some [d] →
      createLogEntry id ts ev =
        some { id := id, type := .tool_call, timestamp := ts,
               content := stripStars d, details := none,
               toolName := none, toolInput := none }) ∧
    (∀ fs, ev.friendly = some fs → 1 < fs.length →
      createLogEntry id ts ev =
        some { id := id, type := .tool_call, timestamp := ts,
               content := "Filling " ++ toString fs.length ++ " fields",
               details := some (String.intercalate ", " (fs.map stripStars)),
               toolName := none, toolInput := none }) := by
  unfold createLogEntry
  rw [h]
  refine ⟨?_, ?_, ?_⟩
  · rintro (hf | hf)
    · rw [hf]
    · rw [hf]; simp
  · intro d hf
    rw [hf]
    simp
  · intro fs hf hlen
    rw [hf]
    have h0 : 0 < fs.length := Nat.lt_of_lt_of_le Nat.one_pos (Nat.le_of_lt hlen)
    simp [h0, hlen]

/-- Witness for C9: the spec scenario with two marked-up descriptions
folds to one entry with content counting two fields and the stripped
detail. -/
theorem c9_witness :
    demoToolUseEv.type = EventType.tool_use ∧
    createLogEntry "i" 7 demoToolUseEv =
      some { id := "i", type := .tool_call, timestamp := 7,
             content := "Filling 2 fields",
             details := some "Set name field, Set date field",
             toolName := none, toolInput := none } := by
  refine ⟨rfl, ?_⟩
  have h := (c9_tool_use_folding "i" 7 demoToolUseEv rfl).2.2
    ["**Set** name field", "**Set** date field"] rfl (by decide)
  rw [h]
  rfl

/-- C2 counterexample: with an agent session id but no filled PDF the
turn is classified fresh, yet the stream is still opened with the
accumulated edits as previousEdits and the agent session id as
resumeSessionId — they are not passed only when continuing. -/
theorem c2_counterexample :
    sidNoPdfState.agentSessionId = some "abc" ∧
    sidNoPdfState.filledPdfBytes = none ∧
    (handleSendMessage sidNoPdfState "hi" [] none).request =
      some { instructions := "hi", filledPdfBytes := none, isContinuation := false,
             previousEdits := some [("name", "John")],
             resumeSessionId := some "abc", userSessionId := none } :=
  ⟨rfl, rfl, rfl⟩

/-- C2 (amended): the turn is classified as a continuation iff a
non-empty agentSessionId and a non-null filled PDF are both present;
the filled-PDF bytes are passed only when continuing, while the
accumulated appliedEdits and the agentSessionId are passed
unconditionally as the current values, and the userSessionId is passed
whenever known. -/
theorem c2_amended_request_contents (s : HomeState) (f : String)
    (hf : s.file = some f) (c : String) (evs : List StreamEvent)
    (th : Option String) :
    (handleSendMessage s c evs th).request = some (turnRequest s c) ∧
    ((turnRequest s c).isContinuation = true ↔
      ((∃ a, s.agentSessionId = some a ∧ a ≠ "") ∧ s.filledPdfBytes.isSome = true)) ∧
    (turnRequest s c).filledPdfBytes =
      (if (turnRequest s c).isContinuation then s.filledPdfBytes else none) ∧
    (turnRequest s c).previousEdits = s.appliedEdits ∧
    (turnRequest s c).resumeSessionId = s.agentSessionId ∧
    (turnRequest s c).userSessionId = s.userSessionId ∧
    (turnRequest s c).instructions = c := by
  refine ⟨?_, ?_, rfl, rfl, rfl, rfl, rfl⟩
  · cases th with
    | some msg => rw [handleSendMessage_thrown_eq s f hf c evs msg]
    | none => rw [handleSendMessage_none_eq s f hf c evs]
  · show (turnIsCont s = true ↔ _)
    unfold turnIsCont jsTruthyStr
    cases hsid : s.agentSessionId <;> simp [Bool.and_eq_true]

/-- Witness for the amended C2: the agent-session-id-without-PDF state
of the counterexample. -/
theorem c2_amended_witness :
    sidNoPdfState.file = some "form.pdf" ∧
    ((handleSendMessage sidNoPdfState "hi" [] none).request =
        some (turnRequest sidNoPdfState "hi") ∧
     ((turnRequest sidNoPdfState "hi").isContinuation = true ↔
       ((∃ a, sidNoPdfState.agentSessionId = some a ∧ a ≠ "") ∧
        sidNoPdfState.filledPdfBytes.isSome = true)) ∧
     (turnRequest sidNoPdfState "hi").filledPdfBytes =
       (if (turnRequest sidNoPdfState "hi").isContinuation then
          sidNoPdfState.filledPdfBytes else none) ∧
     (turnRequest sidNoPdfState "hi").previousEdits = sidNoPdfState.appliedEdits ∧
     (turnRequest sidNoPdfState "hi").resumeSessionId = sidNoPdfState.agentSessionId ∧
     (turnRequest sidNoPdfState "hi").userSessionId = sidNoPdfState.userSessionId ∧
     (turnRequest sidNoPdfState "hi").instructions = "hi") :=
  ⟨rfl, c2_amended_request_contents sidNoPdfState "form.pdf" rfl "hi" [] none⟩

/-- C6 counterexample: a completed turn whose complete event carries a
cumulative map lacking a previously applied key removes that key — the
mapping does not only grow. -/
theorem c6_counterexample :
    oneEditState.appliedEdits = some [("a", "1")] ∧
    (handleSendMessage oneEditState "go" [shrinkCompleteEv] none).state.appliedEdits =
      some [("b", "2")] ∧
    ((handleSendMessage oneEditState "go" [shrinkCompleteEv] none).state.appliedEdits.getD
        []).lookup "a" = none :=
  ⟨rfl, rfl, rfl⟩

/-- C6 (amended): a completed turn replaces appliedEdits wholesale with
the applied_edits of the last complete event carrying one, and leaves
it unchanged when no complete event carried a map; previously present
keys survive only if the backend's reported cumulative map contains
them. -/
theorem c6_amended_edits_wholesale (s : HomeState) (f : String)
    (hf : s.file = some f) (c : String) (evs : List StreamEvent) :
    (handleSendMessage s c evs none).state.appliedEdits =
      (if (lastEditsOf evs).isSome then lastEditsOf evs else s.appliedEdits) := by
  have hacc : (turnFolded s c evs).2.newAppliedEdits = lastEditsOf evs := by
    unfold turnFolded lastEditsOf
    rw [foldEvents_acc_edits]
    rfl
  have hst : (turnFolded s c evs).1.appliedEdits = s.appliedEdits :=
    (foldEvents_state_fixed (turnIsCont s) (turnAid s) evs (turnS1 s c, initAcc)).2.2.2.1
  rw [handleSendMessage_none_eq s f hf c evs]
  show (if (turnFolded s c evs).2.newAppliedEdits.isSome then
      (turnFolded s c evs).2.newAppliedEdits
    else (turnFolded s c evs).1.appliedEdits) =
    (if (lastEditsOf evs).isSome then lastEditsOf evs else s.appliedEdits)
  rw [hacc, hst]

/-- Witness for the amended C6: the shrinking complete event of the
counterexample. -/
theorem c6_amended_witness :
    oneEditState.file = some "form.pdf" ∧
    (handleSendMessage oneEditState "go" [shrinkCompleteEv] none).state.appliedEdits =
      (if (lastEditsOf [shrinkCompleteEv]).isSome then lastEditsOf [shrinkCompleteEv]
       else oneEditState.appliedEdits) :=
  ⟨rfl, c6_amended_edits_wholesale oneEditState "form.pdf" rfl "go" [shrinkCompleteEv]⟩

/-- C7 counterexample: an explicit user reset on an idle mid-task
session keeps the existing sessionId and keeps the message history — it
neither mints a new sessionId nor clears the whole session. -/
theorem c7_counterexample :
    midTaskState.isProcessing = false ∧
    (handleReset midTaskState).sessionId = midTaskState.sessionId ∧
    (handleReset midTaskState).messages = midTaskState.messages ∧
    midTaskState.messages ≠ [] := by
  refine ⟨rfl, rfl, rfl, ?_⟩
  decide

/-- C7 (amended): sessionId is never reassigned, neither by a turn nor
by reset; a turn never clears agentSessionId or userSessionId (it keeps
each or replaces it with a truthy backend-supplied value); explicit
reset clears the per-task state but keeps the sessionId and the
messages (reset does clear both backend session ids, via
handleFileSelectClear). -/
theorem c7_amended_identifier_rules (s : HomeState) (c : String)
    (evs : List StreamEvent) (th : Option String) :
    (handleSendMessage s c evs th).state.sessionId = s.sessionId ∧
    ((handleSendMessage s c evs th).state.agentSessionId = s.agentSessionId ∨
      jsTruthyStr (handleSendMessage s c evs th).state.agentSessionId = true) ∧
    ((handleSendMessage s c evs th).state.userSessionId = s.userSessionId ∨
      jsTruthyStr (handleSendMessage s c evs th).state.userSessionId = true) ∧
    (handleReset s).sessionId = s.sessionId ∧
    (handleReset s).messages = s.messages := by
  have hreset : (handleReset s).sessionId = s.sessionId ∧
      (handleReset s).messages = s.messages := by
    unfold handleReset handleFileSelectClear
    split <;> exact ⟨rfl, rfl⟩
  cases hsf : s.file with
  | none =>
      unfold handleSendMessage
      rw [hsf]
      exact ⟨rfl, Or.inl rfl, Or.inl rfl, hreset.1, hreset.2⟩
  | some f =>
      have hfix := foldEvents_state_fixed (turnIsCont s) (turnAid s) evs (turnS1 s c, initAcc)
      have hsess : (turnFolded s c evs).1.sessionId = s.sessionId := hfix.1
      have hagent : (turnFolded s c evs).1.agentSessionId = s.agentSessionId := hfix.2.1
      have huser : (turnFolded s c evs).1.userSessionId = s.userSessionId := hfix.2.2.1
      cases th with
      | some msg =>
          rw [handleSendMessage_thrown_eq s f hsf c evs msg]
          exact ⟨hsess, Or.inl hagent, Or.inl huser, hreset.1, hreset.2⟩
      | none =>
          rw [handleSendMessage_none_eq s f hsf c evs]
          refine ⟨hsess, ?_, ?_, hreset.1, hreset.2⟩
          · show (if jsTruthyStr (turnFolded s c evs).2.newAgentSessionId then
                (turnFolded s c evs).2.newAgentSessionId
              else (turnFolded s c evs).1.agentSessionId) = s.agentSessionId ∨
              jsTruthyStr (if jsTruthyStr (turnFolded s c evs).2.newAgentSessionId then
                (turnFolded s c evs).2.newAgentSessionId
              else (turnFolded s c evs).1.agentSessionId) = true
            cases hcond : jsTruthyStr (turnFolded s c evs).2.newAgentSessionId
            · simp only [hcond, Bool.false_eq_true, if_false]
              exact Or.inl hagent
            · simp only [hcond, if_true]
              exact Or.inr trivial
          · show (if jsTruthyStr (turnFolded s c evs).2.newUserSessionId then
                (turnFolded s c evs).2.newUserSessionId
              else (turnFolded s c evs).1.userSessionId) = s.userSessionId ∨
              jsTruthyStr (if jsTruthyStr (turnFolded s c evs).2.newUserSessionId then
                (turnFolded s c evs).2.newUserSessionId
              else (turnFolded s c evs).1.userSessionId) = true
            cases hcond : jsTruthyStr (turnFolded s c evs).2.newUserSessionId
            · simp only [hcond, Bool.false_eq_true, if_false]
              exact Or.inl huser
            · simp only [hcond, if_true]
              exact Or.inr trivial

/-- C8 counterexample: a completed turn whose backend returned only an
agent session id adopts it but performs no synchronous save — the
adopted identifier is not persisted before the handler returns (indeed
the persisted snapshot never contains the agentSessionId). -/
theorem c8_counterexample :
    (handleSendMessage demoState "hi" [agentSidCompleteEv] none).state.agentSessionId =
      some "abc" ∧
    (handleSendMessage demoState "hi" [agentSidCompleteEv] none).saves = [] :=
  ⟨rfl, rfl⟩

/-- C8 (amended): a backend-returned userSessionId is adopted
unconditionally and persisted synchronously before the handler returns
(one save call, carrying the new id and the closure snapshot); without
one, no synchronous save happens; a backend-returned agentSessionId is
adopted unconditionally but triggers no synchronous save. -/
theorem c8_amended_persist_only_for_user_sid (s : HomeState) (f : String)
    (hf : s.file = some f) (c : String) (evs : List StreamEvent) :
    (jsTruthyStr (lastUserSid evs) = true →
      (handleSendMessage s c evs none).state.userSessionId = lastUserSid evs ∧
      (handleSendMessage s c evs none).saves = [turnSave s c evs] ∧
      (turnSave s c evs).userSessionId = lastUserSid evs ∧
      (turnSave s c evs).sessionId = s.sessionId ∧
      (turnSave s c evs).isProcessing = false) ∧
    (jsTruthyStr (lastUserSid evs) = false →
      (handleSendMessage s c evs none).saves = [] ∧
      (handleSendMessage s c evs none).state.userSessionId = s.userSessionId) ∧
    (jsTruthyStr (lastAgentSid evs) = true →
      (handleSendMessage s c evs none).state.agentSessionId = lastAgentSid evs) := by
  have haccU : (turnFolded s c evs).2.newUserSessionId = lastUserSid evs := by
    unfold turnFolded lastUserSid
    rw [foldEvents_acc_userSid]
    rfl
  have haccA : (turnFolded s c evs).2.newAgentSessionId = lastAgentSid evs := by
    unfold turnFolded lastAgentSid
    rw [foldEvents_acc_agentSid]
    rfl
  have huser : (turnFolded s c evs).1.userSessionId = s.userSessionId :=
    (foldEvents_state_fixed (turnIsCont s) (turnAid s) evs (turnS1 s c, initAcc)).2.2.1
  rw [handleSendMessage_none_eq s f hf c evs]
  refine ⟨?_, ?_, ?_⟩
  · intro h
    have h' : jsTruthyStr (turnFolded s c evs).2.newUserSessionId = true := by
      rw [haccU]; exact h
    refine ⟨?_, ?_, ?_, rfl, rfl⟩
    · show (if jsTruthyStr (turnFolded s c evs).2.newUserSessionId then
          (turnFolded s c evs).2.newUserSessionId
        else (turnFolded s c evs).1.userSessionId) = lastUserSid evs
      simp only [h', if_true]
      exact haccU
    · show (if jsTruthyStr (turnFolded s c evs).2.newUserSessionId then
          [turnSave s c evs] else []) = [turnSave s c evs]
      simp only [h', if_true]
    · exact haccU
  · intro h
    have h' : jsTruthyStr (turnFolded s c evs).2.newUserSessionId = false := by
      rw [haccU]; exact h
    constructor
    · show (if jsTruthyStr (turnFolded s c evs).2.newUserSessionId then
          [turnSave s c evs] else []) = []
      simp only [h', Bool.false_eq_true, if_false]
    · show (if jsTruthyStr (turnFolded s c evs).2.newUserSessionId then
          (turnFolded s c evs).2.newUserSessionId
        else (turnFolded s c evs).1.userSessionId) = s.userSessionId
      simp only [h', Bool.false_eq_true, if_false]
      exact huser
  · intro h
    have h' : jsTruthyStr (turnFolded s c evs).2.newAgentSessionId = true := by
      rw [haccA]; exact h
    show (if jsTruthyStr (turnFolded s c evs).2.newAgentSessionId then
        (turnFolded s c evs).2.newAgentSessionId
      else (turnFolded s c evs).1.agentSessionId) = lastAgentSid evs
    simp only [h', if_true]
    exact haccA

/-- Witness for the amended C8: a complete event returning both backend
identifiers triggers adoption and exactly one synchronous save. -/
theorem c8_amended_witness :
    demoState.file = some "form.pdf" ∧
    jsTruthyStr (lastUserSid [demoUserSidEv]) = true ∧
    ((handleSendMessage demoState "hi" [demoUserSidEv] none).state.userSessionId =
        lastUserSid [demoUserSidEv] ∧
     (handleSendMessage demoState "hi" [demoUserSidEv] none).saves =
        [turnSave demoState "hi" [demoUserSidEv]] ∧
     (turnSave demoState "hi" [demoUserSidEv]).userSessionId = lastUserSid [demoUserSidEv] ∧
     (turnSave demoState "hi" [demoUserSidEv]).sessionId = demoState.sessionId ∧
     (turnSave demoState "hi" [demoUserSidEv]).isProcessing = false) :=
  ⟨rfl, rfl,
   (c8_amended_persist_only_for_user_sid demoState "form.pdf" rfl "hi" [demoUserSidEv]).1 rfl⟩

end FormFillApp
